import Mathlib

/-!
Shallow embedding of `UrlPreviewService` (Sharkey backend, url-preview
request pipeline) and proofs of the specification claims about it.

The embedding mirrors `packages/backend/src/server/web/UrlPreviewService.ts`:
the `handle` request pipeline (parameter validation, feature flag, cache
lookup, fetch, result validation, icon/thumbnail rewriting, cache write,
catch-all failure response) and the private `wrap` image-URL function.
External collaborators (the summaly library, Redis, the HTTP client, the
imgproxy signer) are modelled as parameters: the fetch outcome is passed in
as an `Except`, the imgproxy signer as an opaque-to-the-theorems function
argument, and the two-tier cache as an association list together with
explicit side-effect tracking (`cacheRead`, `cacheWrites`, `didFetch`).
-/

namespace UrlPreview

/-- Embedded-player descriptor of a summaly result. In TypeScript the
declared type always has a `url : string | null` field; `Option String`
models `null` as `none`. -/
structure Player where
  url : Option String
deriving DecidableEq, Repr

/-- Fetched summary record (`SummalyResult`). `icon` and `thumbnail` are
`string | null` in the source. The `player` field is `Option Player`:
the declared TypeScript type always carries a player object, but a summary
obtained through the JSON proxy path is unvalidated at runtime, so an
absent (`undefined`, non-object) player is representable as `none`. -/
structure SummalyResult where
  title : Option String
  description : Option String
  url : String
  icon : Option String
  thumbnail : Option String
  player : Option Player
deriving DecidableEq, Repr

/-- The parts of the process configuration (`Config`) that
`UrlPreviewService` reads: the optional imgproxy endpoint with its key and
salt, and the media-proxy base path. -/
structure Config where
  imgproxyURL : Option String
  imgproxyKey : Option String
  imgproxySalt : Option String
  mediaProxy : String
deriving DecidableEq, Repr

/-- The parts of the instance meta (`MiMeta`) that the handler reads. -/
structure MiMeta where
  urlPreviewEnabled : Bool
  urlPreviewSummaryProxyUrl : Option String
  urlPreviewUserAgent : Option String
  urlPreviewTimeout : Nat
  urlPreviewMaximumContentLength : Nat
  urlPreviewRequireContentLength : Bool
deriving DecidableEq, Repr

/-- A query-string parameter value as fastify may deliver it: absent,
a single string, or an array (repeated parameter). -/
inductive QueryValue where
  | missing
  | str (s : String)
  | arr (xs : List String)
deriving DecidableEq, Repr

/-- Well-formed optional `lang` parameters embed into `QueryValue`. -/
def langQ : Option String → QueryValue
  | some s => QueryValue.str s
  | none => QueryValue.missing

/-- Boolean prefix test on character lists (structural, so that concrete
instances evaluate in the kernel); `strStarts s p` is `s.startsWith p`. -/
def listStarts : List Char → List Char → Bool
  | _, [] => true
  | [], _ :: _ => false
  | c :: cs, d :: ds => c == d && listStarts cs ds

/-- String prefix test, `String.startsWith` over the character data. -/
def strStarts (s p : String) : Bool :=
  listStarts s.data p.data

/-- The check `/^https?:\x2f\x2f/` (in `wrap`) and the equivalent
`startsWith('http:\x2f\x2f') || startsWith('https:\x2f\x2f')` (in `handle`):
does the string begin with a literal http or https URL prefix? -/
def jsHttpMatch (u : String) : Bool :=
  strStarts u "http://" || strStarts u "https://"

/-- JavaScript template-literal stringification of the `lang` variable of
`handle`, whose runtime type is `string | undefined`: an absent value
prints as the literal string `undefined`. -/
def langToStringJS : Option String → String
  | none => "undefined"
  | some s => s

/-- The cache key computed at line 116 of the source:
`` `${url}@${lang}` ``. -/
def cacheKey (url : String) (lang : Option String) : String :=
  url ++ "@" ++ langToStringJS lang

/-- The `lang` option passed to the summaly fetch (`lang ?? 'ja-JP'`,
line 179): the fallback locale applies here, not in the cache key. -/
def summalyLangParam (lang : Option String) : String :=
  lang.getD "ja-JP"

/-- Hexadecimal digit character (uppercase), for percent-encoding. -/
def hexDigitChar (n : Nat) : Char :=
  if n < 10 then Char.ofNat (48 + n) else Char.ofNat (55 + n)

/-- Percent-encoding of one byte value. -/
def percentEncodeByte (n : Nat) : String :=
  String.mk ['%', hexDigitChar (n / 16), hexDigitChar (n % 16)]

/-- Characters that JavaScript `encodeURIComponent` leaves unescaped. -/
def isUriUnreserved (c : Char) : Bool :=
  c.isAlpha || c.isDigit ||
  c = '-' || c = '_' || c = '.' || c = '!' || c = '~' || c = '*' ||
  c = Char.ofNat 39 || c = '(' || c = ')'

/-- UTF-8 byte values of a character. -/
def utf8ByteVals (c : Char) : List Nat :=
  let n := c.toNat
  if n < 128 then [n]
  else if n < 2048 then [192 + n / 64, 128 + n % 64]
  else if n < 65536 then [224 + n / 4096, 128 + (n / 64) % 64, 128 + n % 64]
  else [240 + n / 262144, 128 + (n / 4096) % 64, 128 + (n / 64) % 64, 128 + n % 64]

/-- JavaScript `encodeURIComponent`: unreserved characters pass through,
every other character is percent-encoded byte-wise in UTF-8. -/
def encodeURIComponent (s : String) : String :=
  String.join (s.data.map fun c =>
    if isUriUnreserved c then String.mk [c]
    else String.join ((utf8ByteVals c).map percentEncodeByte))

/-- Modelled from the spec: the `query` helper from `@/misc/prelude/url.js`
is imported by the service but its source is not part of the sampled files.
The spec describes the fallback proxy URL as carrying the original URL and
a preview marker as query parameters; modelled as percent-encoded
`key=value` pairs joined with `&`, in the order given. -/
def query (ps : List (String × String)) : String :=
  String.intercalate "&" (ps.map fun p => p.1 ++ "=" ++ encodeURIComponent p.2)

/-- The private `wrap` method (lines 51-84). The imgproxy signer
`generateImageUrl` is an external library; it is abstracted as the function
argument `gen` (applied only when an imgproxy endpoint is configured). -/
def wrap (cfg : Config) (gen : String → String) (url : Option String) : Option String :=
  match cfg.imgproxyURL with
  | some _ =>
    match url with
    | some u => if jsHttpMatch u then some (gen u) else some u
    | none => none
  | none =>
    match url with
    | some u =>
      if jsHttpMatch u then
        some (cfg.mediaProxy ++ "/preview.webp?" ++ query [("url", u), ("preview", "1")])
      else some u
    | none => none

/-- The scheme validation of `handle` (lines 137-143). The canonical URL
must start with `http` or `https`; then `summary.player.url` is read, which
throws a `TypeError` when `player` is absent (not an object); when the
player URL is a non-empty (truthy) string it must also start with `http`
or `https`. Any thrown error is an `Except.error`. -/
def validateSummary (s : SummalyResult) : Except String Unit :=
  if !jsHttpMatch s.url then
    Except.error "unsupported schema included"
  else
    match s.player with
    | none => Except.error "TypeError: cannot read properties of undefined"
    | some p =>
      match p.url with
      | some u =>
        if u != "" && !jsHttpMatch u then
          Except.error "unsupported schema included"
        else
          Except.ok ()
      | none => Except.ok ()

/-- The rewrite step (lines 145-146): icon and thumbnail are passed
through `wrap`. -/
def rewriteSummary (cfg : Config) (gen : String → String) (s : SummalyResult) : SummalyResult :=
  { s with icon := wrap cfg gen s.icon, thumbnail := wrap cfg gen s.thumbnail }

/-- The response body of `handle`: `undefined` (empty), a summary record,
or the `{ error: new ApiError({message, code, id}) }` envelope. -/
inductive Body where
  | empty
  | summary (s : SummalyResult)
  | errorEnvelope (message code id : String)
deriving DecidableEq, Repr

/-- Observable outcome of one `handle` call: HTTP status (fastify default
200 unless `reply.code` is called), the `Cache-Control` header if set, the
body, and the side effects on collaborators: whether the preview cache was
read, the list of cache writes performed, and whether an outbound fetch
(direct summaly or proxy `getJson`) was started. -/
structure HandleOutcome where
  status : Nat
  cacheControl : Option String
  body : Body
  cacheRead : Bool
  cacheWrites : List (String × SummalyResult)
  didFetch : Bool
deriving DecidableEq, Repr

/-- The `handle` method (lines 87-167). The cache is an association list
keyed by the computed cache key; `fetchResult` is the outcome of the
direct-or-proxy fetch (`Except.error` models a thrown/rejected fetch),
consulted only when the pipeline reaches the fetch step. -/
def handle (cfg : Config) (gen : String → String) (meta : MiMeta)
    (cache : List (String × SummalyResult))
    (fetchResult : Except String SummalyResult)
    (urlParam langParam : QueryValue) : HandleOutcome :=
  match urlParam with
  | QueryValue.str url =>
    match langParam with
    | QueryValue.arr _ =>
      { status := 400, cacheControl := none, body := Body.empty,
        cacheRead := false, cacheWrites := [], didFetch := false }
    | _ =>
      let lang : Option String :=
        match langParam with
        | QueryValue.str s => some s
        | _ => none
      if !meta.urlPreviewEnabled then
        { status := 403, cacheControl := none,
          body := Body.errorEnvelope "URL preview is disabled" "URL_PREVIEW_DISABLED"
            "58b36e13-d2f5-0323-b0c6-76aa9dabefb8",
          cacheRead := false, cacheWrites := [], didFetch := false }
      else
        let key := cacheKey url lang
        match cache.lookup key with
        | some cached =>
          { status := 200, cacheControl := some "max-age=604800, immutable",
            body := Body.summary cached,
            cacheRead := true, cacheWrites := [], didFetch := false }
        | none =>
          match fetchResult with
          | Except.error _ =>
            { status := 422, cacheControl := some "max-age=86400, immutable",
              body := Body.errorEnvelope "Failed to get preview" "URL_PREVIEW_FAILED"
                "09d01cb5-53b9-4856-82e5-38a50c290a3b",
              cacheRead := true, cacheWrites := [], didFetch := true }
          | Except.ok summary =>
            match validateSummary summary with
            | Except.error _ =>
              { status := 422, cacheControl := some "max-age=86400, immutable",
                body := Body.errorEnvelope "Failed to get preview" "URL_PREVIEW_FAILED"
                  "09d01cb5-53b9-4856-82e5-38a50c290a3b",
                cacheRead := true, cacheWrites := [], didFetch := true }
            | Except.ok _ =>
              let rewritten := rewriteSummary cfg gen summary
              { status := 200, cacheControl := some "max-age=604800, immutable",
                body := Body.summary rewritten,
                cacheRead := true, cacheWrites := [(key, rewritten)], didFetch := true }
  | _ =>
    { status := 400, cacheControl := none, body := Body.empty,
      cacheRead := false, cacheWrites := [], didFetch := false }

/-- The failure envelope built at lines 159-165 of the source. -/
def failureEnvelope : Body :=
  Body.errorEnvelope "Failed to get preview" "URL_PREVIEW_FAILED"
    "09d01cb5-53b9-4856-82e5-38a50c290a3b"

/-- Sample configuration with no imgproxy endpoint, for concrete runs. -/
def sampleConfig : Config :=
  { imgproxyURL := none, imgproxyKey := none, imgproxySalt := none,
    mediaProxy := "https://media.test" }

/-- Sample meta with the url-preview feature enabled and no summary proxy. -/
def sampleMeta : MiMeta :=
  { urlPreviewEnabled := true, urlPreviewSummaryProxyUrl := none,
    urlPreviewUserAgent := none, urlPreviewTimeout := 10000,
    urlPreviewMaximumContentLength := 10000000,
    urlPreviewRequireContentLength := false }

/-- Sample meta with the url-preview feature disabled. -/
def sampleMetaOff : MiMeta :=
  { sampleMeta with urlPreviewEnabled := false }

/-- Sample well-formed fetched summary (valid scheme, null player URL). -/
def sampleSummary : SummalyResult :=
  { title := some "Example", description := none, url := "https://x.test/page",
    icon := some "https://x.test/icon.png", thumbnail := some "rel/t.png",
    player := some { url := none } }

/-- Sample summary whose player URL is the empty string (falsy in JS). -/
def sampleSummaryEmptyPlayerUrl : SummalyResult :=
  { title := some "t", description := none, url := "https://example.com",
    icon := none, thumbnail := none, player := some { url := some "" } }

/-- Sample summary whose canonical URL smuggles a javascript scheme. -/
def sampleSummaryBadScheme : SummalyResult :=
  { title := some "t", description := none, url := "javascript:alert(1)",
    icon := none, thumbnail := none, player := some { url := none } }

/-- Sample summary with the player descriptor entirely absent. -/
def sampleSummaryNoPlayer : SummalyResult :=
  { title := some "t", description := none, url := "https://example.com",
    icon := none, thumbnail := none, player := none }

/-- Sample cache holding one entry for a concrete key. -/
def sampleHitCache : List (String × SummalyResult) :=
  [(cacheKey "https://x.test/page" (some "en"), sampleSummary)]

end UrlPreview

namespace UrlPreview

/-! Helper lemmas shared by several claim proofs. -/

lemma wrap_none (cfg : Config) (gen : String → String) : wrap cfg gen none = none := by
  cases h : cfg.imgproxyURL <;> simp [wrap, h]

lemma wrap_not_http (cfg : Config) (gen : String → String) (u : String)
    (h : jsHttpMatch u = false) : wrap cfg gen (some u) = some u := by
  cases hc : cfg.imgproxyURL <;> simp [wrap, hc, h]

lemma query_url_preview (u : String) :
    query [("url", u), ("preview", "1")] = "url=" ++ encodeURIComponent u ++ "&preview=1" := by
  have h1 : query [("url", u), ("preview", "1")]
      = "url=" ++ encodeURIComponent u ++ "&" ++ ("preview=" ++ encodeURIComponent "1") := rfl
  have h2 : ("&" : String) ++ ("preview=" ++ encodeURIComponent "1") = "&preview=1" := rfl
  rw [h1, String.append_assoc, h2]

lemma validate_error_of_bad (s : SummalyResult)
    (hbad : jsHttpMatch s.url = false ∨
      ∃ p u, s.player = some p ∧ p.url = some u ∧ u ≠ "" ∧ jsHttpMatch u = false) :
    ∃ m, validateSummary s = Except.error m := by
  rcases hbad with h | ⟨p, u, hp, hu, hne, hm⟩
  · exact ⟨"unsupported schema included", by simp [validateSummary, h]⟩
  · cases hurl : jsHttpMatch s.url
    · exact ⟨"unsupported schema included", by simp [validateSummary, hurl]⟩
    · refine ⟨"unsupported schema included", ?_⟩
      simp [validateSummary, hurl, hp, hu, hm, hne]

lemma append_delim_inj {l1 l2 r1 r2 : List Char}
    (h1 : '@' ∉ l1) (h2 : '@' ∉ l2)
    (h : l1 ++ '@' :: r1 = l2 ++ '@' :: r2) : l1 = l2 ∧ r1 = r2 := by
  induction l1 generalizing l2 with
  | nil =>
    cases l2 with
    | nil =>
      simp only [List.nil_append, List.cons.injEq] at h
      exact ⟨rfl, h.2⟩
    | cons c t =>
      simp only [List.nil_append, List.cons_append, List.cons.injEq] at h
      exact absurd (h.1 ▸ List.mem_cons_self c t) h2
  | cons c t ih =>
    cases l2 with
    | nil =>
      simp only [List.cons_append, List.nil_append, List.cons.injEq] at h
      exact absurd (h.1 ▸ List.mem_cons_self c t) h1
    | cons d u =>
      simp only [List.cons_append, List.cons.injEq] at h
      obtain ⟨hcd, htail⟩ := h
      have := ih (fun hm => h1 (List.mem_cons_of_mem _ hm))
        (fun hm => h2 (List.mem_cons_of_mem _ hm)) htail
      exact ⟨by rw [hcd, this.1], this.2⟩

lemma cacheKey_data (u : String) (l : Option String) :
    (cacheKey u l).data = u.data ++ '@' :: (langToStringJS l).data := by
  simp [cacheKey, String.data_append]

/-! Claim theorems. -/

/-- C1 (counterexample). The claim as stated fails on the code: a fetched
summary whose embedded player URL is present but equal to the empty string
(which is not an http or https URL) is not rejected, because the JavaScript
truthiness test `summary.player.url && ...` skips the scheme check for the
empty string; the handler returns 200 and writes the cache entry. -/
theorem handle_empty_player_url_cex :
    sampleSummaryEmptyPlayerUrl.player = some { url := some "" } ∧
    jsHttpMatch "" = false ∧
    (handle sampleConfig (fun s => s) sampleMeta [] (Except.ok sampleSummaryEmptyPlayerUrl)
      (QueryValue.str "https://example.com") (langQ none)).status = 200 ∧
    (handle sampleConfig (fun s => s) sampleMeta [] (Except.ok sampleSummaryEmptyPlayerUrl)
      (QueryValue.str "https://example.com") (langQ none)).cacheWrites ≠ [] := by
  decide

/-- C1 (amended). For every fetched summary whose canonical URL does not
start with an http or https scheme, or whose embedded player URL is
present, non-empty (truthy) and does not start with an http or https
scheme, `handle` returns the 422 failure response and writes no cache
entry: the malformed result is never stored. -/
theorem handle_bad_scheme (cfg : Config) (gen : String → String) (meta : MiMeta)
    (cache : List (String × SummalyResult))
    (url : String) (lang : Option String) (s : SummalyResult)
    (hflag : meta.urlPreviewEnabled = true)
    (hmiss : cache.lookup (cacheKey url lang) = none)
    (hbad : jsHttpMatch s.url = false ∨
      ∃ p u, s.player = some p ∧ p.url = some u ∧ u ≠ "" ∧ jsHttpMatch u = false) :
    (handle cfg gen meta cache (Except.ok s) (QueryValue.str url) (langQ lang)).status = 422 ∧
    (handle cfg gen meta cache (Except.ok s) (QueryValue.str url) (langQ lang)).body =
      failureEnvelope ∧
    (handle cfg gen meta cache (Except.ok s) (QueryValue.str url) (langQ lang)).cacheWrites
      = [] := by
  obtain ⟨m, hval⟩ := validate_error_of_bad s hbad
  cases lang <;> simp [handle, langQ, hflag, hmiss, hval, failureEnvelope]

/-- C1 (witness). The amended theorem applied to a summary whose canonical
URL uses a javascript scheme, on an empty cache. -/
theorem handle_bad_scheme_witness :
    (handle sampleConfig (fun s => s) sampleMeta [] (Except.ok sampleSummaryBadScheme)
      (QueryValue.str "https://example.com") (langQ none)).status = 422 ∧
    (handle sampleConfig (fun s => s) sampleMeta [] (Except.ok sampleSummaryBadScheme)
      (QueryValue.str "https://example.com") (langQ none)).body = failureEnvelope ∧
    (handle sampleConfig (fun s => s) sampleMeta [] (Except.ok sampleSummaryBadScheme)
      (QueryValue.str "https://example.com") (langQ none)).cacheWrites = [] :=
  handle_bad_scheme sampleConfig (fun s => s) sampleMeta [] "https://example.com" none
    sampleSummaryBadScheme rfl rfl (Or.inl (by decide))

/-- C2. For every request whose computed cache key is present in the cache
(and which passes the parameter checks and the feature flag), `handle`
returns the stored summary unchanged with status 200, sets the header
`Cache-Control: max-age=604800, immutable`, performs no outbound fetch and
writes nothing to the cache. -/
theorem handle_cache_hit (cfg : Config) (gen : String → String) (meta : MiMeta)
    (cache : List (String × SummalyResult)) (fr : Except String SummalyResult)
    (url : String) (lang : Option String) (v : SummalyResult)
    (hflag : meta.urlPreviewEnabled = true)
    (hhit : cache.lookup (cacheKey url lang) = some v) :
    (handle cfg gen meta cache fr (QueryValue.str url) (langQ lang)).status = 200 ∧
    (handle cfg gen meta cache fr (QueryValue.str url) (langQ lang)).body = Body.summary v ∧
    (handle cfg gen meta cache fr (QueryValue.str url) (langQ lang)).cacheControl =
      some "max-age=604800, immutable" ∧
    (handle cfg gen meta cache fr (QueryValue.str url) (langQ lang)).didFetch = false ∧
    (handle cfg gen meta cache fr (QueryValue.str url) (langQ lang)).cacheWrites = [] := by
  cases lang <;> simp [handle, langQ, hflag, hhit]

/-- C2 (witness). A concrete cache hit: even with a failing fetch oracle,
the stored summary is returned without fetching. -/
theorem handle_cache_hit_witness :
    (handle sampleConfig (fun s => s) sampleMeta sampleHitCache (Except.error "unreachable")
      (QueryValue.str "https://x.test/page") (langQ (some "en"))).status = 200 ∧
    (handle sampleConfig (fun s => s) sampleMeta sampleHitCache (Except.error "unreachable")
      (QueryValue.str "https://x.test/page") (langQ (some "en"))).body =
      Body.summary sampleSummary ∧
    (handle sampleConfig (fun s => s) sampleMeta sampleHitCache (Except.error "unreachable")
      (QueryValue.str "https://x.test/page") (langQ (some "en"))).cacheControl =
      some "max-age=604800, immutable" ∧
    (handle sampleConfig (fun s => s) sampleMeta sampleHitCache (Except.error "unreachable")
      (QueryValue.str "https://x.test/page") (langQ (some "en"))).didFetch = false ∧
    (handle sampleConfig (fun s => s) sampleMeta sampleHitCache (Except.error "unreachable")
      (QueryValue.str "https://x.test/page") (langQ (some "en"))).cacheWrites = [] :=
  handle_cache_hit sampleConfig (fun s => s) sampleMeta sampleHitCache
    (Except.error "unreachable") "https://x.test/page" (some "en") sampleSummary rfl
    (by decide)

/-- C3. Whenever the urlPreviewEnabled flag is false, `handle` returns
status 403 with the URL_PREVIEW_DISABLED envelope and its fixed UUID, and
performs no cache read, no cache write and no outbound fetch, for every
well-formed (url, lang) input. -/
theorem handle_disabled (cfg : Config) (gen : String → String) (meta : MiMeta)
    (cache : List (String × SummalyResult)) (fr : Except String SummalyResult)
    (url : String) (lang : Option String)
    (hflag : meta.urlPreviewEnabled = false) :
    (handle cfg gen meta cache fr (QueryValue.str url) (langQ lang)).status = 403 ∧
    (handle cfg gen meta cache fr (QueryValue.str url) (langQ lang)).body =
      Body.errorEnvelope "URL preview is disabled" "URL_PREVIEW_DISABLED"
        "58b36e13-d2f5-0323-b0c6-76aa9dabefb8" ∧
    (handle cfg gen meta cache fr (QueryValue.str url) (langQ lang)).cacheRead = false ∧
    (handle cfg gen meta cache fr (QueryValue.str url) (langQ lang)).cacheWrites = [] ∧
    (handle cfg gen meta cache fr (QueryValue.str url) (langQ lang)).didFetch = false := by
  cases lang <;> simp [handle, langQ, hflag]

/-- C3 (witness). The disabled-flag theorem at a concrete request. -/
theorem handle_disabled_witness :
    (handle sampleConfig (fun s => s) sampleMetaOff [] (Except.ok sampleSummary)
      (QueryValue.str "https://x.test/page") (langQ none)).status = 403 ∧
    (handle sampleConfig (fun s => s) sampleMetaOff [] (Except.ok sampleSummary)
      (QueryValue.str "https://x.test/page") (langQ none)).body =
      Body.errorEnvelope "URL preview is disabled" "URL_PREVIEW_DISABLED"
        "58b36e13-d2f5-0323-b0c6-76aa9dabefb8" ∧
    (handle sampleConfig (fun s => s) sampleMetaOff [] (Except.ok sampleSummary)
      (QueryValue.str "https://x.test/page") (langQ none)).cacheRead = false ∧
    (handle sampleConfig (fun s => s) sampleMetaOff [] (Except.ok sampleSummary)
      (QueryValue.str "https://x.test/page") (langQ none)).cacheWrites = [] ∧
    (handle sampleConfig (fun s => s) sampleMetaOff [] (Except.ok sampleSummary)
      (QueryValue.str "https://x.test/page") (langQ none)).didFetch = false :=
  handle_disabled sampleConfig (fun s => s) sampleMetaOff [] (Except.ok sampleSummary)
    "https://x.test/page" none rfl

/-- C4. Every exception raised during the fetch or proxy call, and every
exception raised by the scheme validation, is caught and converted into the
single failure response: status 422, header
`Cache-Control: max-age=86400, immutable`, the URL_PREVIEW_FAILED envelope
with its fixed UUID, and no cache write; the body is the same fixed
envelope whatever the underlying exception message, so its content never
appears in the response. -/
theorem handle_failure (cfg : Config) (gen : String → String) (meta : MiMeta)
    (cache : List (String × SummalyResult))
    (url : String) (lang : Option String)
    (hflag : meta.urlPreviewEnabled = true)
    (hmiss : cache.lookup (cacheKey url lang) = none) :
    (∀ e : String,
      (handle cfg gen meta cache (Except.error e) (QueryValue.str url) (langQ lang)).status
        = 422 ∧
      (handle cfg gen meta cache (Except.error e) (QueryValue.str url) (langQ lang)).cacheControl
        = some "max-age=86400, immutable" ∧
      (handle cfg gen meta cache (Except.error e) (QueryValue.str url) (langQ lang)).body
        = failureEnvelope ∧
      (handle cfg gen meta cache (Except.error e) (QueryValue.str url) (langQ lang)).cacheWrites
        = []) ∧
    (∀ (s : SummalyResult) (msg : String), validateSummary s = Except.error msg →
      (handle cfg gen meta cache (Except.ok s) (QueryValue.str url) (langQ lang)).status
        = 422 ∧
      (handle cfg gen meta cache (Except.ok s) (QueryValue.str url) (langQ lang)).cacheControl
        = some "max-age=86400, immutable" ∧
      (handle cfg gen meta cache (Except.ok s) (QueryValue.str url) (langQ lang)).body
        = failureEnvelope ∧
      (handle cfg gen meta cache (Except.ok s) (QueryValue.str url) (langQ lang)).cacheWrites
        = []) := by
  constructor
  · intro e
    cases lang <;> simp [handle, langQ, hflag, hmiss, failureEnvelope]
  · intro s msg hval
    cases lang <;> simp [handle, langQ, hflag, hmiss, hval, failureEnvelope]

/-- C4 (witness). A concrete network failure on an empty cache produces
the fixed 422 failure response. -/
theorem handle_failure_witness :
    (handle sampleConfig (fun s => s) sampleMeta [] (Except.error "ECONNREFUSED")
      (QueryValue.str "https://down.test") (langQ none)).status = 422 ∧
    (handle sampleConfig (fun s => s) sampleMeta [] (Except.error "ECONNREFUSED")
      (QueryValue.str "https://down.test") (langQ none)).cacheControl =
      some "max-age=86400, immutable" ∧
    (handle sampleConfig (fun s => s) sampleMeta [] (Except.error "ECONNREFUSED")
      (QueryValue.str "https://down.test") (langQ none)).body = failureEnvelope ∧
    (handle sampleConfig (fun s => s) sampleMeta [] (Except.error "ECONNREFUSED")
      (QueryValue.str "https://down.test") (langQ none)).cacheWrites = [] :=
  (handle_failure sampleConfig (fun s => s) sampleMeta [] "https://down.test" none rfl
    rfl).1 "ECONNREFUSED"

/-- C5 (counterexample). The cache key is not collision-resistant over the
whole (url, lang) pair space: the distinct pairs ("a@b", "c") and
("a", "b@c") map to the same key "a@b@c"; moreover the differing lang
values absent and "undefined" map to the same key for the same URL,
because an absent lang stringifies to the literal "undefined". -/
theorem cacheKey_collision_cex :
    (("a@b", "c") ≠ (("a" : String), ("b@c" : String))) ∧
    cacheKey "a@b" (some "c") = cacheKey "a" (some "b@c") ∧
    ((none : Option String) ≠ some "undefined") ∧
    cacheKey "u" none = cacheKey "u" (some "undefined") := by
  decide

/-- C5 (amended). The cache key is stable: identical url and lang map to
the same key; for every url, two present lang strings that differ map to
distinct keys; and two distinct (url, lang) pairs with present lang values
map to distinct keys whenever neither url contains the delimiter
character @. -/
theorem cacheKey_props :
    (∀ (u1 u2 : String) (l1 l2 : Option String), u1 = u2 → l1 = l2 →
      cacheKey u1 l1 = cacheKey u2 l2) ∧
    (∀ (u : String) (l1 l2 : String), l1 ≠ l2 →
      cacheKey u (some l1) ≠ cacheKey u (some l2)) ∧
    (∀ (u1 u2 l1 l2 : String), (u1, l1) ≠ (u2, l2) → '@' ∉ u1.data → '@' ∉ u2.data →
      cacheKey u1 (some l1) ≠ cacheKey u2 (some l2)) := by
  refine ⟨fun u1 u2 l1 l2 hu hl => by rw [hu, hl], ?_, ?_⟩
  · intro u l1 l2 hne heq
    apply hne
    have hd := congrArg String.data heq
    rw [cacheKey_data, cacheKey_data] at hd
    have h2 := List.append_cancel_left hd
    simp only [langToStringJS, List.cons.injEq] at h2
    exact String.ext h2.2
  · intro u1 u2 l1 l2 hne h1 h2 heq
    have hd := congrArg String.data heq
    rw [cacheKey_data, cacheKey_data] at hd
    simp only [langToStringJS] at hd
    obtain ⟨hu, hl⟩ := append_delim_inj h1 h2 hd
    exact hne (by rw [String.ext hu, String.ext hl])

/-- C5 (witness). Distinct lang values and distinct delimiter-free urls
give distinct keys at concrete inputs. -/
theorem cacheKey_props_witness :
    cacheKey "https://a.test" (some "en") ≠ cacheKey "https://a.test" (some "fr") ∧
    cacheKey "x" (some "en") ≠ cacheKey "y" (some "en") :=
  ⟨cacheKey_props.2.1 "https://a.test" "en" "fr" (by decide),
   cacheKey_props.2.2 "x" "y" "en" "en" (by decide) (by decide) (by decide)⟩

/-- C6 (counterexample). A request with lang absent and a request with
lang equal to the fallback locale ja-JP do not compute the same cache key:
the key for an absent lang ends in the literal "@undefined". -/
theorem cacheKey_fallback_cex :
    cacheKey "https://example.com" none ≠ cacheKey "https://example.com" (some "ja-JP") := by
  decide

/-- C6 (amended). When lang is absent, the cache key is computed with the
JavaScript stringification "undefined" in the language position (so it
coincides with the key of the literal lang "undefined"); the fixed fallback
locale ja-JP is applied only to the lang parameter of the summaly fetch,
so a request with lang absent and a request with lang = "ja-JP" compute
distinct cache keys. -/
theorem cacheKey_lang_default (url : String) :
    cacheKey url none = cacheKey url (some "undefined") ∧
    summalyLangParam none = "ja-JP" ∧
    cacheKey url none ≠ cacheKey url (some "ja-JP") := by
  refine ⟨rfl, rfl, ?_⟩
  intro h
  have hd := congrArg String.data h
  rw [cacheKey_data, cacheKey_data] at hd
  have h2 := List.append_cancel_left hd
  exact absurd h2 (by decide)

/-- C7. The wrap function is a pure Lean function (hence deterministic and
side-effect free) with: wrap of null is null; every input not starting
with an http or https prefix is returned unchanged; and every http(s)
input, when no imgproxy endpoint is configured, is rewritten to a URL
rooted at the configured media-proxy path carrying the percent-encoded
original URL and preview=1 as query parameters. -/
theorem wrap_spec (cfg : Config) (gen : String → String) :
    wrap cfg gen none = none ∧
    (∀ u, jsHttpMatch u = false → wrap cfg gen (some u) = some u) ∧
    (cfg.imgproxyURL = none → ∀ u, jsHttpMatch u = true →
      wrap cfg gen (some u) =
        some (cfg.mediaProxy ++ "/preview.webp?" ++
          ("url=" ++ encodeURIComponent u ++ "&preview=1"))) := by
  refine ⟨wrap_none cfg gen, fun u h => wrap_not_http cfg gen u h, fun hc u hu => ?_⟩
  simp [wrap, hc, hu, query_url_preview]

/-- C7 (witness). The media-proxy fallback at a concrete image URL. -/
theorem wrap_spec_witness :
    wrap sampleConfig (fun s => s) (some "https://example.com/a.png") =
      some ("https://media.test" ++ "/preview.webp?" ++
        ("url=" ++ encodeURIComponent "https://example.com/a.png" ++ "&preview=1")) :=
  (wrap_spec sampleConfig (fun s => s)).2.2 rfl "https://example.com/a.png" (by decide)

/-- C8. A request whose url parameter is missing or array-valued, and a
request whose lang parameter is array-valued, each yield status 400 with
an empty body and no cache read, no cache write and no outbound fetch. -/
theorem handle_bad_params (cfg : Config) (gen : String → String) (meta : MiMeta)
    (cache : List (String × SummalyResult)) (fr : Except String SummalyResult) :
    (∀ lp : QueryValue,
      handle cfg gen meta cache fr QueryValue.missing lp =
        { status := 400, cacheControl := none, body := Body.empty,
          cacheRead := false, cacheWrites := [], didFetch := false }) ∧
    (∀ (xs : List String) (lp : QueryValue),
      handle cfg gen meta cache fr (QueryValue.arr xs) lp =
        { status := 400, cacheControl := none, body := Body.empty,
          cacheRead := false, cacheWrites := [], didFetch := false }) ∧
    (∀ (url : String) (ys : List String),
      handle cfg gen meta cache fr (QueryValue.str url) (QueryValue.arr ys) =
        { status := 400, cacheControl := none, body := Body.empty,
          cacheRead := false, cacheWrites := [], didFetch := false }) :=
  ⟨fun _ => rfl, fun _ _ => rfl, fun _ _ => rfl⟩

/-- C9. On the success path the returned and cached record is the fetched
summary with its icon and thumbnail passed through wrap: an absent field
remains absent and a field that does not look like an http(s) URL passes
through unchanged. -/
theorem handle_success_rewrite (cfg : Config) (gen : String → String) (meta : MiMeta)
    (cache : List (String × SummalyResult))
    (url : String) (lang : Option String) (s : SummalyResult)
    (hflag : meta.urlPreviewEnabled = true)
    (hmiss : cache.lookup (cacheKey url lang) = none)
    (hval : validateSummary s = Except.ok ()) :
    (handle cfg gen meta cache (Except.ok s) (QueryValue.str url) (langQ lang)).body =
      Body.summary (rewriteSummary cfg gen s) ∧
    (handle cfg gen meta cache (Except.ok s) (QueryValue.str url) (langQ lang)).cacheWrites =
      [(cacheKey url lang, rewriteSummary cfg gen s)] ∧
    (rewriteSummary cfg gen s).icon = wrap cfg gen s.icon ∧
    (rewriteSummary cfg gen s).thumbnail = wrap cfg gen s.thumbnail ∧
    (s.icon = none → (rewriteSummary cfg gen s).icon = none) ∧
    (s.thumbnail = none → (rewriteSummary cfg gen s).thumbnail = none) ∧
    (∀ u, s.icon = some u → jsHttpMatch u = false →
      (rewriteSummary cfg gen s).icon = some u) ∧
    (∀ u, s.thumbnail = some u → jsHttpMatch u = false →
      (rewriteSummary cfg gen s).thumbnail = some u) := by
  refine ⟨?_, ?_, rfl, rfl, ?_, ?_, ?_, ?_⟩
  · cases lang <;> simp [handle, langQ, hflag, hmiss, hval]
  · cases lang <;> simp [handle, langQ, hflag, hmiss, hval]
  · intro h; simp [rewriteSummary, h, wrap_none]
  · intro h; simp [rewriteSummary, h, wrap_none]
  · intro u hu h; simp [rewriteSummary, hu, wrap_not_http cfg gen u h]
  · intro u hu h; simp [rewriteSummary, hu, wrap_not_http cfg gen u h]

/-- C9 (witness). The rewrite at a concrete valid summary: the relative
thumbnail passes through unchanged and the result is cached under the
computed key. -/
theorem handle_success_rewrite_witness :
    (handle sampleConfig (fun s => s) sampleMeta [] (Except.ok sampleSummary)
      (QueryValue.str "https://x.test/page") (langQ none)).body =
      Body.summary (rewriteSummary sampleConfig (fun s => s) sampleSummary) ∧
    (rewriteSummary sampleConfig (fun s => s) sampleSummary).thumbnail = some "rel/t.png" :=
  ⟨(handle_success_rewrite sampleConfig (fun s => s) sampleMeta [] "https://x.test/page"
      none sampleSummary rfl rfl rfl).1,
   (handle_success_rewrite sampleConfig (fun s => s) sampleMeta [] "https://x.test/page"
      none sampleSummary rfl rfl rfl).2.2.2.2.2.2.2 "rel/t.png" rfl (by decide)⟩

/-- C10. A fetched summary whose player descriptor is entirely absent
(not an object) makes the handler return the 422 failure response even
when the canonical URL is a valid http(s) URL, because reading the url
field of the absent descriptor throws inside the try block. -/
theorem handle_absent_player (cfg : Config) (gen : String → String) (meta : MiMeta)
    (cache : List (String × SummalyResult))
    (url : String) (lang : Option String) (s : SummalyResult)
    (hflag : meta.urlPreviewEnabled = true)
    (hmiss : cache.lookup (cacheKey url lang) = none)
    (hplayer : s.player = none) :
    (handle cfg gen meta cache (Except.ok s) (QueryValue.str url) (langQ lang)).status = 422 ∧
    (handle cfg gen meta cache (Except.ok s) (QueryValue.str url) (langQ lang)).body =
      failureEnvelope ∧
    (handle cfg gen meta cache (Except.ok s) (QueryValue.str url) (langQ lang)).cacheWrites
      = [] := by
  have hval : ∃ m, validateSummary s = Except.error m := by
    cases hurl : jsHttpMatch s.url
    · exact ⟨"unsupported schema included", by simp [validateSummary, hurl]⟩
    · exact ⟨"TypeError: cannot read properties of undefined",
        by simp [validateSummary, hurl, hplayer]⟩
  obtain ⟨m, hval⟩ := hval
  cases lang <;> simp [handle, langQ, hflag, hmiss, hval, failureEnvelope]

/-- C10 (witness). A summary with a valid canonical URL but no player
object is rejected with the 422 failure response and is not cached. -/
theorem handle_absent_player_witness :
    jsHttpMatch sampleSummaryNoPlayer.url = true ∧
    (handle sampleConfig (fun s => s) sampleMeta [] (Except.ok sampleSummaryNoPlayer)
      (QueryValue.str "https://example.com") (langQ none)).status = 422 ∧
    (handle sampleConfig (fun s => s) sampleMeta [] (Except.ok sampleSummaryNoPlayer)
      (QueryValue.str "https://example.com") (langQ none)).body = failureEnvelope ∧
    (handle sampleConfig (fun s => s) sampleMeta [] (Except.ok sampleSummaryNoPlayer)
      (QueryValue.str "https://example.com") (langQ none)).cacheWrites = [] :=
  ⟨by decide,
   (handle_absent_player sampleConfig (fun s => s) sampleMeta [] "https://example.com"
     none sampleSummaryNoPlayer rfl rfl rfl).1,
   (handle_absent_player sampleConfig (fun s => s) sampleMeta [] "https://example.com"
     none sampleSummaryNoPlayer rfl rfl rfl).2.1,
   (handle_absent_player sampleConfig (fun s => s) sampleMeta [] "https://example.com"
     none sampleSummaryNoPlayer rfl rfl rfl).2.2⟩

end UrlPreview
